import Mathlib

/-!
Verification of the two-tier (L2 shard / L1 BFT ledger) transaction pipeline.

The Go sources are shallowly embedded: pure functions become Lean functions,
the PostgreSQL index store and the Badger ledger store become explicit state
values threaded through the operations, machine integers become `Nat`/`Int`
with explicit `% 2 ^ w` where overflow matters, and fallible operations
return `Option`/`Except`.  External collaborators (the CometBFT broadcast,
the HTTP client used for forwarding, the random source behind `uuid.New`)
are modelled as explicit parameters carrying their outcome.
-/

namespace ThesisExt

/-! ## Bytes and hex encoding

Byte strings are `List Nat` with every element intended `< 256`.
`strBytes` is Go's `[]byte(s)` (UTF-8); `hexEncode` is
`encoding/hex.EncodeToString`, which produces lowercase digits. -/

/-- Lowercase hexadecimal digit for a nibble, as produced by Go's
`encoding/hex` and by `github.com/google/uuid`. -/
def hexDigit (n : Nat) : Char :=
  if n < 10 then Char.ofNat (48 + n) else Char.ofNat (87 + n)

/-- The two lowercase hex characters of one byte. -/
def byteHex (b : Nat) : List Char :=
  [hexDigit (b / 16 % 16), hexDigit (b % 16)]

/-- Go `hex.EncodeToString`: lowercase hex of a byte string. -/
def hexEncode (bytes : List Nat) : String :=
  String.mk (bytes.flatMap byteHex)

/-- Go `[]byte(s)`: the UTF-8 bytes of a string. -/
def strBytes (s : String) : List Nat :=
  (s.data.flatMap String.utf8EncodeChar).map UInt8.toNat

/-! ## SHA-256 (model of Go `crypto/sha256`, i.e. FIPS 180-4)

All word arithmetic is on `Nat` reduced `% 2 ^ 32`. -/

/-- 32-bit right rotation. -/
def rotr32 (n x : Nat) : Nat :=
  ((x >>> n) ||| (x <<< (32 - n))) % 2 ^ 32

def ch32 (e f g : Nat) : Nat :=
  (e &&& f) ^^^ ((e ^^^ 4294967295) &&& g)

def maj32 (a b c : Nat) : Nat :=
  (a &&& b) ^^^ (a &&& c) ^^^ (b &&& c)

def bigSigma0 (x : Nat) : Nat := rotr32 2 x ^^^ rotr32 13 x ^^^ rotr32 22 x

def bigSigma1 (x : Nat) : Nat := rotr32 6 x ^^^ rotr32 11 x ^^^ rotr32 25 x

def smallSigma0 (x : Nat) : Nat := rotr32 7 x ^^^ rotr32 18 x ^^^ (x >>> 3)

def smallSigma1 (x : Nat) : Nat := rotr32 17 x ^^^ rotr32 19 x ^^^ (x >>> 10)

/-- The 64 SHA-256 round constants of FIPS 180-4, written in decimal. -/
def sha256K : List Nat :=
  [1116352408, 1899447441, 3049323471, 3921009573, 961987163,
   1508970993, 2453635748, 2870763221, 3624381080, 310598401,
   607225278, 1426881987, 1925078388, 2162078206, 2614888103,
   3248222580, 3835390401, 4022224774, 264347078, 604807628,
   770255983, 1249150122, 1555081692, 1996064986, 2554220882,
   2821834349, 2952996808, 3210313671, 3336571891, 3584528711,
   113926993, 338241895, 666307205, 773529912, 1294757372,
   1396182291, 1695183700, 1986661051, 2177026350, 2456956037,
   2730485921, 2820302411, 3259730800, 3345764771, 3516065817,
   3600352804, 4094571909, 275423344, 430227734, 506948616,
   659060556, 883997877, 958139571, 1322822218, 1537002063,
   1747873779, 1955562222, 2024104815, 2227730452, 2361852424,
   2428436474, 2756734187, 3204031479, 3329325298]

/-- The eight SHA-256 initial hash words of FIPS 180-4, in decimal. -/
def sha256H0 : List Nat :=
  [1779033703, 3144134277, 1013904242, 2773480762, 1359893119,
   2600822924, 528734635, 1541459225]

/-- Big-endian 8-byte encoding of a `Nat` (mod `2 ^ 64`). -/
def word64Bytes (n : Nat) : List Nat :=
  let u := n % 2 ^ 64
  [u >>> 56 % 256, u >>> 48 % 256, u >>> 40 % 256, u >>> 32 % 256,
   u >>> 24 % 256, u >>> 16 % 256, u >>> 8 % 256, u % 256]

/-- Big-endian 4-byte encoding of a 32-bit word. -/
def word32Bytes (n : Nat) : List Nat :=
  [n >>> 24 % 256, n >>> 16 % 256, n >>> 8 % 256, n % 256]

/-- SHA-256 padding: append `0x80`, zero bytes, then the 64-bit big-endian
bit length, reaching a multiple of 64 bytes. -/
def padMessage (msg : List Nat) : List Nat :=
  let z := (119 - msg.length % 64) % 64
  msg ++ 0x80 :: List.replicate z 0 ++ word64Bytes (8 * msg.length)

/-- Big-endian packing of bytes into 32-bit words. -/
def toWords : List Nat → List Nat
  | b0 :: b1 :: b2 :: b3 :: rest =>
      (b0 * 2 ^ 24 + b1 * 2 ^ 16 + b2 * 2 ^ 8 + b3) % 2 ^ 32 :: toWords rest
  | _ => []

/-- Split a byte string into 64-byte blocks. -/
def chunks64 (l : List Nat) : List (List Nat) :=
  if h : l = [] then []
  else
    have : (l.drop 64).length < l.length := by
      cases l with
      | nil => exact absurd rfl h
      | cons a t => simp [List.length_drop]; omega
    l.take 64 :: chunks64 (l.drop 64)
termination_by l.length

/-- Extend the 16-word block to the 64-word message schedule
(`n` remaining extension steps). -/
def buildW : Nat → List Nat → List Nat
  | 0, w => w
  | n + 1, w =>
      buildW n (w ++ [(smallSigma1 (w.getD (w.length - 2) 0) +
        w.getD (w.length - 7) 0 + smallSigma0 (w.getD (w.length - 15) 0) +
        w.getD (w.length - 16) 0) % 2 ^ 32])

/-- One SHA-256 compression round applied to the state `[a,b,c,d,e,f,g,h]`
with the round constant and schedule word. -/
def compressStep (st : List Nat) (kw : Nat × Nat) : List Nat :=
  match st with
  | [a, b, c, d, e, f, g, h] =>
      let t1 := (h + bigSigma1 e + ch32 e f g + kw.1 + kw.2) % 2 ^ 32
      let t2 := (bigSigma0 a + maj32 a b c) % 2 ^ 32
      [(t1 + t2) % 2 ^ 32, a, b, c, (d + t1) % 2 ^ 32, e, f, g]
  | other => other

/-- Process one 64-byte chunk. -/
def processChunk (h : List Nat) (chunk : List Nat) : List Nat :=
  let w := buildW 48 (toWords chunk)
  let st := (sha256K.zip w).foldl compressStep h
  (h.zip st).map fun p => (p.1 + p.2) % 2 ^ 32

/-- SHA-256 digest of a byte string (32 bytes). -/
def sha256 (msg : List Nat) : List Nat :=
  ((chunks64 (padMessage msg)).foldl processChunk sha256H0).flatMap word32Bytes

/-! ## L1 ABCI application (`layer-1/app`)

The Badger ledger store is modelled as an association list in which a `Set`
prepends its entry and a lookup takes the most recent entry for a key:
the block's single ongoing write transaction.  `Txn.Set` never fails for
the small keys and values written here, so it is modelled as total. -/

/-- The ledger store (the block's ongoing Badger write transaction). -/
def Store := List (String × List Nat)

/-- `badger.Txn.Set`: the most recent write for a key shadows older ones. -/
def storeSet (s : Store) (key : String) (val : List Nat) : Store :=
  (key, val) :: s

/-- `badger.Txn.Get`: the most recent write for a key, if any. -/
def storeGet (s : Store) (key : String) : Option (List Nat) :=
  (List.find? (fun p => p.1 == key) s).map (·.2)

/-- `repository.ShardedCommitRequest`.  `SessionData` is
`map[string]interface{}` in Go; it is modelled by its JSON serialization,
which is all the L1 ever does with it. -/
structure ShardedCommitRequest where
  shardID : String
  clientGroup : String
  sessionID : String
  operatorID : String
  sessionData : String
  l2NodeID : String
  timestamp : Nat
deriving Repr, DecidableEq

/-- `abcitypes.EventAttribute`. -/
structure EventAttribute where
  key : String
  value : String
  index : Bool
deriving Repr, DecidableEq

/-- `abcitypes.Event`. -/
structure Event where
  type : String
  attributes : List EventAttribute
deriving Repr, DecidableEq

/-- `abcitypes.ExecTxResult` (the fields the application sets). -/
structure ExecTxResult where
  code : Nat
  data : List Nat
  log : String
  events : List Event
deriving Repr, DecidableEq

/-- A raw transaction as it reaches `FinalizeBlock`, together with the
outcome of `json.Unmarshal` into `ShardedCommitRequest`: `malformed` is a
byte string the unmarshal rejects, `commit` carries the decoded request and
the raw bytes. -/
inductive Tx where
  | malformed (raw : List Nat)
  | commit (req : ShardedCommitRequest) (raw : List Nat)
deriving Repr, DecidableEq

/-- `generateTxID`: lowercase hex of `SHA-256(sessionID + shardID)`. -/
def generateTxID (sessionID shardID : String) : String :=
  hexEncode (sha256 (strBytes (sessionID ++ shardID)))

/-- `calculateAppHash`: SHA-256 of the concatenation of the `Data` fields
of the transaction results, in order. -/
def calculateAppHash (txResults : List ExecTxResult) : List Nat :=
  sha256 (txResults.map (·.data)).flatten

/-- `storeShardCommit`: writes `tx:<txID>` (raw bytes),
`shard:<shardID>:session:<sessionID>` (raw bytes) and `status:<txID>`
(the status string) into the ongoing block transaction, and returns the
result carrying the tx id as data and one `l1_shard_commit` event. -/
def storeShardCommit (txID : String) (req : ShardedCommitRequest)
    (status : String) (rawTx : List Nat) (store : Store) :
    ExecTxResult × Store :=
  let store := storeSet store ("tx:" ++ txID) rawTx
  let store := storeSet store
    ("shard:" ++ req.shardID ++ ":session:" ++ req.sessionID) rawTx
  let store := storeSet store ("status:" ++ txID) (strBytes status)
  ({ code := 0, data := strBytes txID, log := status,
     events := [{ type := "l1_shard_commit",
                  attributes :=
                    [{ key := "session_id", value := req.sessionID, index := true },
                     { key := "shard_id", value := req.shardID, index := true },
                     { key := "client_group", value := req.clientGroup, index := true },
                     { key := "tx_id", value := txID, index := true },
                     { key := "status", value := status, index := true }] }] },
   store)

/-- The body of the `FinalizeBlock` transaction loop for one transaction. -/
def finalizeTx (tx : Tx) (store : Store) : ExecTxResult × Store :=
  match tx with
  | .malformed _ =>
      ({ code := 1, data := [], log := "Invalid shard commit format",
         events := [] }, store)
  | .commit req raw =>
      storeShardCommit (generateTxID req.sessionID req.shardID) req
        "accepted" raw store

/-- The `FinalizeBlock` loop over all transactions of the block, threading
the ongoing block transaction. -/
def finalizeTxs : List Tx → Store → List ExecTxResult × Store
  | [], store => ([], store)
  | tx :: txs, store =>
      let p := finalizeTx tx store
      let q := finalizeTxs txs p.2
      (p.1 :: q.1, q.2)

/-- `int64ToBytes`: big-endian 8-byte encoding of an `int64`
(two's complement). -/
def int64ToBytes (i : Int) : List Nat :=
  let u := (i % (2 : Int) ^ 64).toNat
  [u >>> 56 % 256, u >>> 48 % 256, u >>> 40 % 256, u >>> 32 % 256,
   u >>> 24 % 256, u >>> 16 % 256, u >>> 8 % 256, u % 256]

/-- Reinterpret an unsigned 64-bit value as Go `int64`. -/
def toInt64 (u : Nat) : Int :=
  if u % 2 ^ 64 < 2 ^ 63 then (u % 2 ^ 64 : Nat)
  else (u % 2 ^ 64 : Nat) - (2 : Int) ^ 64

/-- `bytesToInt64`: returns `0` for inputs shorter than 8 bytes, otherwise
ors the eight bytes into an `int64` exactly as the Go shifts do. -/
def bytesToInt64 (buf : List Nat) : Int :=
  if buf.length < 8 then 0
  else
    toInt64 ((buf.getD 0 0 <<< 56) ||| (buf.getD 1 0 <<< 48) |||
      (buf.getD 2 0 <<< 40) ||| (buf.getD 3 0 <<< 32) |||
      (buf.getD 4 0 <<< 24) ||| (buf.getD 5 0 <<< 16) |||
      (buf.getD 6 0 <<< 8) ||| buf.getD 7 0)

/-- `abcitypes.FinalizeBlockResponse` (the fields the application sets). -/
structure FinalizeBlockResponse where
  txResults : List ExecTxResult
  appHash : List Nat
deriving Repr, DecidableEq

/-- `FinalizeBlock`: processes every transaction of the block in consensus
order inside one ongoing write transaction, then stores
`last_block_height` and `last_block_app_hash` and returns the results and
the app hash.  (`Commit` then commits the ongoing transaction.) -/
def FinalizeBlock (height : Int) (txs : List Tx) (store : Store) :
    FinalizeBlockResponse × Store :=
  let p := finalizeTxs txs store
  let appHash := calculateAppHash p.1
  let store := storeSet p.2 "last_block_height" (int64ToBytes height)
  let store := storeSet store "last_block_app_hash" appHash
  ({ txResults := p.1, appHash := appHash }, store)

/-! ## L1 repository and commit admission (`layer-1/repository`)

The PostgreSQL index store is the `Db` value below.  Database
transactions that only read-then-insert are modelled by pure state
passing; the unique primary key on `session_id` makes `Create` fail with
a unique violation exactly when a row with the same id already exists.
The CometBFT broadcast is an external collaborator: its outcome is a
`BroadcastOutcome` parameter, and `pending` means the broadcast never
completes (the Go handler then blocks forever, modelled by `none`). -/

/-- `models.ShardInfo` (L1). -/
structure ShardInfo where
  shardID : String
  clientGroup : String
  l2NodeID : String
  status : String
deriving Repr, DecidableEq

/-- `models.Session` (the L1 index row). -/
structure L1Session where
  id : String
  shardID : String
  clientGroup : String
  operatorID : String
  status : String
  isCommitted : Bool
  txHash : Option String
  sessionData : String
deriving Repr, DecidableEq

/-- `models.Transaction` (L1). -/
structure L1Transaction where
  txHash : String
  sessionID : String
  shardID : String
  clientGroup : String
  blockHeight : Int
  status : String
deriving Repr, DecidableEq

/-- The L1 relational index store. -/
structure Db where
  shards : List ShardInfo
  sessions : List L1Session
  transactions : List L1Transaction
deriving Repr, DecidableEq

/-- `repository.RepositoryError`. -/
structure RepositoryError where
  code : String
  message : String
  detail : String
deriving Repr, DecidableEq

/-- Whether `dbTx.Where("shard_id = ?", ...).First(&shard)` finds a row. -/
def shardExists (db : Db) (shardID : String) : Bool :=
  db.shards.any (fun s => s.shardID == shardID)

/-- Whether an index row with this `session_id` exists (the unique primary
key that makes the pre-insert fail with `23505`). -/
def sessionExists (db : Db) (sessionID : String) : Bool :=
  db.sessions.any (fun s => s.id == sessionID)

/-- The index row `ReceiveShardCommit` pre-inserts for a request. -/
def mkIndexRow (req : ShardedCommitRequest) : L1Session :=
  { id := req.sessionID, shardID := req.shardID,
    clientGroup := req.clientGroup, operatorID := req.operatorID,
    status := "committed", isCommitted := true, txHash := none,
    sessionData := req.sessionData }

/-- `r.db.Delete(&session)`: delete by the primary key `session_id`. -/
def deleteSession (db : Db) (sessionID : String) : Db :=
  { db with sessions := db.sessions.filter (fun s => !(s.id == sessionID)) }

/-- The admission phase of `ReceiveShardCommit` (part_005 lines 187-263):
verify the shard, serialize the session data, create the index row, and
commit the database transaction; a duplicate `session_id` rolls back with
`SESSION_EXISTS`, an unknown shard with `SHARD_NOT_FOUND`. -/
def admitSession (db : Db) (req : ShardedCommitRequest) :
    Except RepositoryError (Db × L1Session) :=
  if ¬shardExists db req.shardID then
    .error { code := "SHARD_NOT_FOUND", message := "Unknown shard",
             detail := "Shard " ++ req.shardID ++ " not registered in L1" }
  else
    let session := mkIndexRow req
    if sessionExists db req.sessionID then
      .error { code := "SESSION_EXISTS", message := "Session already exists",
               detail := "Session " ++ req.sessionID ++ " already committed" }
    else
      .ok ({ db with sessions := db.sessions ++ [session] }, session)

/-- `repository.ConsensusResult`. -/
structure ConsensusResult where
  txHash : String
  blockHeight : Int
  code : Nat
deriving Repr, DecidableEq

/-- The outcome of `rpcClient.BroadcastTxCommit` on the background
goroutine: it may never complete, fail with an error, or deliver a result
with the `CheckTx` code, the transaction hash bytes and the height. -/
inductive BroadcastOutcome where
  | pending
  | failure (msg : String)
  | result (checkTxCode : Nat) (hash : List Nat) (height : Int)
deriving Repr, DecidableEq

/-- `RunConsensus` (part_005 lines 321-380).  `ctxDoneFirst` records
whether the `select` takes the `ctx.Done()` branch before the broadcast
completes; `none` models blocking forever (context never done and the
broadcast never delivering). -/
def RunConsensus (ctxDoneFirst : Bool) (outcome : BroadcastOutcome) :
    Option (Except RepositoryError ConsensusResult) :=
  if ctxDoneFirst then
    some (.error { code := "CONSENSUS_TIMEOUT",
                   message := "Consensus operation timed out",
                   detail := "context deadline exceeded" })
  else
    match outcome with
    | .pending => none
    | .failure msg =>
        some (.error { code := "CONSENSUS_ERROR",
                       message := "Failed to commit to blockchain",
                       detail := msg })
    | .result checkTxCode hash height =>
        if checkTxCode ≠ 0 then
          some (.error { code := "CONSENSUS_ERROR",
                         message := "Blockchain rejected transaction",
                         detail := "CheckTx code nonzero" })
        else
          some (.ok { txHash := hexEncode hash, blockHeight := height,
                      code := checkTxCode })

/-- `ReceiveShardCommit` (part_005 lines 186-318): admit the session,
then run consensus — with `context.Background()`, which is never done, so
the `reqCtxDone` state of the incoming HTTP request's context is never
consulted — deleting the pre-inserted row on consensus failure, and on
success updating the row with the tx hash and inserting the transaction
record. -/
def ReceiveShardCommit (db : Db) (req : ShardedCommitRequest)
    (reqCtxDone : Bool) (outcome : BroadcastOutcome) :
    Option (Db × Except RepositoryError L1Transaction) :=
  match admitSession db req with
  | .error e => some (db, .error e)
  | .ok (db1, session) =>
      match RunConsensus false outcome with
      | none => none
      | some (.error e) => some (deleteSession db1 req.sessionID, .error e)
      | some (.ok res) =>
          let session' := { session with txHash := some res.txHash }
          let db2 :=
            { db1 with sessions := db1.sessions.map (fun s : L1Session => if s.id == session.id then session' else s) }
          let tx : L1Transaction :=
            { txHash := res.txHash, sessionID := req.sessionID,
              shardID := req.shardID, clientGroup := req.clientGroup,
              blockHeight := res.blockHeight, status := "confirmed" }
          some ({ db2 with transactions := db2.transactions ++ [tx] }, .ok tx)

/-- `srvreg.Response` (L1). -/
structure Response where
  statusCode : Nat
  body : String
deriving Repr, DecidableEq

/-- `ReceiveShardCommitHandler` (layer-1/srvreg lines 161-218) on an
already-parsed request body: the required-field validation, the call into
the repository, and the mapping of repository error codes to HTTP status
codes (`SHARD_NOT_FOUND` → 400, `SESSION_EXISTS` → 409, other → 500,
success → 202). -/
def ReceiveShardCommitHandler (db : Db) (req : ShardedCommitRequest)
    (reqCtxDone : Bool) (outcome : BroadcastOutcome) :
    Option (Db × Response) :=
  if req.shardID == "" || req.sessionID == "" || req.clientGroup == "" then
    some (db, ⟨400, "\x7b\"error\":\"Missing required fields: shard_id, session_id, client_group\"\x7d"⟩)
  else
    match ReceiveShardCommit db req reqCtxDone outcome with
    | none => none
    | some (db', .error e) =>
        if e.code == "SHARD_NOT_FOUND" then
          some (db', ⟨400, "\x7b\"error\":\"" ++ e.detail ++ "\"\x7d"⟩)
        else if e.code == "SESSION_EXISTS" then
          some (db', ⟨409, "\x7b\"error\":\"" ++ e.detail ++ "\"\x7d"⟩)
        else
          some (db', ⟨500, "\x7b\"error\":\"Internal server error\"\x7d"⟩)
    | some (db', .ok tx) =>
        some (db', ⟨202, "\x7b\"tx_hash\":\"" ++ tx.txHash ++ "\",\"session_id\":\"" ++ tx.sessionID ++ "\",\"shard_id\":\"" ++ tx.shardID ++ "\"\x7d"⟩)

/-- `handleL1API` (part_004 lines 430-512) writes the handler response's
status code to the HTTP response (`w.WriteHeader(response.StatusCode)`,
line 499): the status the L1 HTTP surface answers with. -/
def handleL1APIStatus (resp : Response) : Nat :=
  resp.statusCode

/-! ## L2 router (`layer-2/srvreg`)

`strings.Split(s, "/")` for the single-character separator is
`splitSeg` over the character list; `strings.HasPrefix(seg, ":")` is
`segIsParam`.  The Go `map[string]map[string]HandlerFunc` is an
association list from method to an association list from pattern to
handler; handlers are kept abstract in `α`. -/

/-- Go `strings.Split(s, "/")` on the characters of `s` (single-character
separator, empty segments preserved). -/
def splitSeg : List Char → List (List Char)
  | [] => [[]]
  | c :: rest =>
      if c = '/' then [] :: splitSeg rest
      else
        match splitSeg rest with
        | [] => [[c]]
        | s :: ss => (c :: s) :: ss

/-- `strings.HasPrefix(segment, ":")`. -/
def segIsParam : List Char → Bool
  | ':' :: _ => true
  | _ => false

/-- The `matchPath` loop: equal segment counts, and every pattern segment
either starts with `:` or equals the path segment. -/
def matchSegs : List (List Char) → List (List Char) → Bool
  | [], [] => true
  | p :: ps, q :: qs => (segIsParam p || p == q) && matchSegs ps qs
  | _, _ => false

/-- `matchPath` (layer-2/srvreg/service-registry.go lines 282-301). -/
def matchPath (pattern path : String) : Bool :=
  matchSegs (splitSeg pattern.data) (splitSeg path.data)

/-- The segment matching the spec describes: a `:name` pattern segment
matches any single **non-empty** segment. -/
def matchSegsSpec : List (List Char) → List (List Char) → Bool
  | [], [] => true
  | p :: ps, q :: qs =>
      ((segIsParam p && !q.isEmpty) || p == q) && matchSegsSpec ps qs
  | _, _ => false

/-- `matchPathSpec` — modelled from the spec's words, for comparison with
`matchPath`: "each `:name` segment matches any single non-empty
segment". -/
def matchPathSpec (pattern path : String) : Bool :=
  matchSegsSpec (splitSeg pattern.data) (splitSeg path.data)

/-- One method's `map[string]HandlerFunc`. -/
def MethodHandlers (α : Type) := List (String × α)

/-- The lookup inside `GetHandlerForPath` once the method map is found:
exact pattern first, then the patterns in iteration order through
`matchPath`. -/
def findHandler {α : Type} (mh : MethodHandlers α) (path : String) :
    Option α :=
  match List.find? (fun p => p.1 == path) mh with
  | some p => some p.2
  | none => (List.find? (fun p => matchPath p.1 path) mh).map (·.2)

/-- `GetHandlerForPath` (lines 259-278): method map lookup, then
`findHandler`. -/
def GetHandlerForPath {α : Type} (handlers : List (String × MethodHandlers α))
    (method path : String) : Option α :=
  match List.find? (fun p => p.1 == method) handlers with
  | none => none
  | some p => findHandler p.2 path

/-- An incoming L2 request (`srvreg.Request`). -/
structure L2Request where
  method : String
  path : String
  body : String
  headers : List (String × String)
deriving Repr, DecidableEq

/-- Header lookup (`req.Headers["X-Client-Group"]`, absent reads as ""). -/
def headerGet (headers : List (String × String)) (key : String) : String :=
  ((List.find? (fun p => p.1 == key) headers).map (·.2)).getD ""

/-- `CheckShardAndRedirect` (lines 352-370): handle locally when the
client group matches the local one or is unknown in the registry copy,
otherwise report the owning shard's endpoint. -/
def CheckShardAndRedirect (localGroup : String)
    (shardTable : List (String × String)) (clientGroup : String) :
    Bool × String :=
  if clientGroup == localGroup then (true, "")
  else
    match List.find? (fun p => p.1 == clientGroup) shardTable with
    | none => (true, "")
    | some p => (false, p.2)

/-- The routing outcome of `GenerateResponse`: forward to another shard
(the outgoing HTTP call is external), invoke a matched handler, or answer
404. -/
inductive RouteResult (α : Type) where
  | forwarded (endpoint : String)
  | handled (handler : α)
  | response (resp : Response)
deriving Repr, DecidableEq

/-- `GenerateResponse` (lines 322-346): header preflight, then routing,
with the JSON 404 for unmatched requests. -/
def GenerateResponse {α : Type} (handlers : List (String × MethodHandlers α))
    (localGroup : String) (shardTable : List (String × String))
    (req : L2Request) : RouteResult α :=
  let clientGroup := headerGet req.headers "X-Client-Group"
  let pre :=
    if clientGroup ≠ "" then CheckShardAndRedirect localGroup shardTable clientGroup
    else (true, "")
  if ¬pre.1 then .forwarded pre.2
  else
    match GetHandlerForPath handlers req.method req.path with
    | some h => .handled h
    | none =>
        .response ⟨404, "\x7b\"error\":\"Service not found for " ++ req.method ++ " " ++ req.path ++ "\"\x7d"⟩

/-! ## Identifier generation (`layer-2/repository`, C7)

`uuid.New()` is `NewRandom()`: sixteen bytes from the random source with
the version nibble and variant bits forced, formatted as the canonical
36-character lowercase string `8-4-4-4-12`.  The random bytes are an
explicit parameter; `% 256` makes the model total on `Nat`. -/

/-- The version/variant masking of `uuid.NewRandom`:
`u[6] = u[6]&0x0f | 0x40`, `u[8] = u[8]&0x3f | 0x80`. -/
def uuidV4Bytes (r : Fin 16 → Nat) : Fin 16 → Nat := fun i =>
  if i = (6 : Fin 16) then (r i % 256) &&& 0x0f ||| 0x40
  else if i = (8 : Fin 16) then (r i % 256) &&& 0x3f ||| 0x80
  else r i % 256

/-- `uuid.UUID.String()`: `xxxxxxxx-xxxx-xxxx-xxxx-xxxxxxxxxxxx` in
lowercase hex. -/
def uuidChars (u : Fin 16 → Nat) : List Char :=
  byteHex (u 0) ++ byteHex (u 1) ++ byteHex (u 2) ++ byteHex (u 3) ++
  '-' :: (byteHex (u 4) ++ byteHex (u 5) ++
  '-' :: (byteHex (u 6) ++ byteHex (u 7) ++
  '-' :: (byteHex (u 8) ++ byteHex (u 9) ++
  '-' :: (byteHex (u 10) ++ byteHex (u 11) ++ byteHex (u 12) ++
          byteHex (u 13) ++ byteHex (u 14) ++ byteHex (u 15)))))

/-- `uuid.New().String()` for a draw `r` of the random source. -/
def uuidNewString (r : Fin 16 → Nat) : List Char :=
  uuidChars (uuidV4Bytes r)

/-- The session id of `CreateSession` (part_000 line 239):
`fmt.Sprintf("SES-%s", uuid.New().String()[:8])`. -/
def sessionIDChars (r : Fin 16 → Nat) : List Char :=
  "SES-".data ++ (uuidNewString r).take 8

/-- The QC id of `QualityCheck` (part_000 line 436). -/
def qcIDChars (r : Fin 16 → Nat) : List Char :=
  "QC-".data ++ (uuidNewString r).take 8

/-- The label id of `LabelPackage` (part_000 line 502). -/
def labelIDChars (r : Fin 16 → Nat) : List Char :=
  "LBL-".data ++ (uuidNewString r).take 8

/-- The tracking number of `LabelPackage` (part_000 line 505):
`fmt.Sprintf("TRK-%s", uuid.New().String()[:12])`. -/
def trackingNoChars (r : Fin 16 → Nat) : List Char :=
  "TRK-".data ++ (uuidNewString r).take 12

/-- Whether a character is a (lowercase) hexadecimal digit. -/
def isHexChar (c : Char) : Bool :=
  (48 ≤ c.toNat && c.toNat ≤ 57) || (97 ≤ c.toNat && c.toNat ≤ 102)

/-! ## L2 session store (`layer-2/repository`, C9)

Each operation is one database transaction; GORM errors outside the
modelled control flow (connection loss, etc.) roll the transaction back
and leave the state unchanged, so the reachable-state relation only steps
on the successful outcomes the code can produce.  Generated identifiers
and timestamps come from outside the store and are explicit parameters. -/

namespace L2

/-- `models.Session` (L2). -/
structure Session where
  id : String
  operatorID : String
  status : String
  isCommitted : Bool
  packageID : Option String
  l1TxHash : Option String
  l1BlockHeight : Option Int
  l1CommitTime : Option Nat
deriving Repr, DecidableEq

/-- `models.Package` (L2). -/
structure Package where
  id : String
  signature : String
  supplierID : String
  status : String
  isTrusted : Bool
  sessionID : Option String
deriving Repr, DecidableEq

/-- `models.QCRecord` (L2). -/
structure QCRecord where
  id : String
  sessionID : String
  passed : Bool
  issues : String
deriving Repr, DecidableEq

/-- `models.Label` (L2). -/
structure Label where
  id : String
  sessionID : String
  courierID : String
  trackingNo : String
deriving Repr, DecidableEq

/-- `models.Courier` (L2). -/
structure Courier where
  id : String
  name : String
deriving Repr, DecidableEq

/-- The L2 shard's relational store. -/
structure Db where
  sessions : List Session
  packages : List Package
  qcRecords : List QCRecord
  labels : List Label
  couriers : List Courier
deriving Repr, DecidableEq

/-- `repository.Seed` creates suppliers, couriers, packages and items but
no sessions: the initial store. -/
def initDb : Db :=
  { sessions := [],
    packages :=
      [⟨"PKG-001", "sig_acme_electronics_001", "SUP-001", "pending", false, none⟩,
       ⟨"PKG-002", "sig_global_tech_002", "SUP-002", "pending", false, none⟩],
    qcRecords := [], labels := [],
    couriers :=
      [⟨"CUR-001", "FastShip Express"⟩, ⟨"CUR-002", "Global Logistics"⟩,
       ⟨"CUR-003", "Quick Delivery Co"⟩] }

/-- `CreateSession` (part_000 lines 238-257); `sessionID` is the
freshly generated `SES-…` id, and `Create` fails on a duplicate key. -/
def CreateSession (db : Db) (sessionID operatorID : String) :
    Except String (Db × Session) :=
  if db.sessions.any (fun s => s.id == sessionID) then
    .error "CREATE_FAILED"
  else
    let session : Session :=
      ⟨sessionID, operatorID, "active", false, none, none, none, none⟩
    .ok ({ db with sessions := db.sessions ++ [session] }, session)

/-- `ScanPackage` (lines 288-342): link the package to the session and
mark it `pending_validation`; the session-row update touches only
`package_id`. -/
def ScanPackage (db : Db) (sessionID packageID : String) :
    Except String (Db × Package) :=
  match db.packages.find? (fun p => p.id == packageID) with
  | none => .error "NOT_FOUND"
  | some pkg =>
      let pkg' := { pkg with status := "pending_validation", sessionID := some sessionID }
      let db' :=
        { db with
          packages := db.packages.map (fun p : Package => if p.id == packageID then pkg' else p),
          sessions := db.sessions.map (fun s : Session => if s.id == sessionID then { s with packageID := some packageID } else s) }
      .ok (db', pkg')

/-- `ValidatePackage` (lines 345-389): permissive signature check, sets
`is_trusted`, `status=validated` and the session link. -/
def ValidatePackage (db : Db) (packageID sessionID : String) :
    Except String (Db × Package) :=
  match db.packages.find? (fun p => p.id == packageID) with
  | none => .error "NOT_FOUND"
  | some pkg =>
      let pkg' := { pkg with isTrusted := true, status := "validated", sessionID := some sessionID }
      let db' :=
        { db with packages := db.packages.map (fun p : Package => if p.id == packageID then pkg' else p) }
      .ok (db', pkg')

/-- `QualityCheck` (lines 392-476): requires the session and its linked
package, creates the unique QC row (`qcID` generated), and flips the
package status. -/
def QualityCheck (db : Db) (sessionID : String) (passed : Bool)
    (issues : String) (qcID : String) :
    Except String (Db × Package × QCRecord) :=
  match db.sessions.find? (fun s => s.id == sessionID) with
  | none => .error "NOT_FOUND"
  | some _ =>
      match db.packages.find? (fun p => p.sessionID == some sessionID) with
      | none => .error "NOT_FOUND"
      | some pkg =>
          if db.qcRecords.any (fun q => q.id == qcID || q.sessionID == sessionID) then
            .error "CREATE_FAILED"
          else
            let qc : QCRecord := ⟨qcID, sessionID, passed, issues⟩
            let pkg' := { pkg with status := if passed then "qc_passed" else "qc_failed" }
            let db' :=
              { db with
                packages := db.packages.map (fun p : Package => if p.id == pkg.id then pkg' else p),
                qcRecords := db.qcRecords ++ [qc] }
            .ok (db', pkg', qc)

/-- `LabelPackage` (lines 479-551): requires the courier, creates the
unique label row (`labelID`/`trackingNo` generated), marks the package
`labeled` and the session `completed` — the session-row update touches
only `status`. -/
def LabelPackage (db : Db) (sessionID courierID labelID trackingNo : String) :
    Except String (Db × Label) :=
  match db.couriers.find? (fun c => c.id == courierID) with
  | none => .error "NOT_FOUND"
  | some _ =>
      if db.labels.any (fun l => l.id == labelID || l.sessionID == sessionID) then
        .error "CREATE_FAILED"
      else
        let label : Label := ⟨labelID, sessionID, courierID, trackingNo⟩
        let db' :=
          { db with
            labels := db.labels ++ [label],
            packages := db.packages.map (fun p : Package => if p.sessionID == some sessionID then { p with status := "labeled" } else p),
            sessions := db.sessions.map (fun s : Session => if s.id == sessionID then { s with status := "completed" } else s) }
        .ok (db', label)

/-- `MarkSessionCommitted` (lines 554-576): one `Updates` call that sets
`is_committed`, `status`, `l1_tx_hash`, `l1_block_height` and
`l1_commit_time` together on the rows with the given session id. -/
def MarkSessionCommitted (db : Db) (sessionID txHash : String)
    (blockHeight : Int) (commitTime : Nat) : Db :=
  { db with
    sessions := db.sessions.map (fun s : Session =>
      if s.id == sessionID then
        { s with isCommitted := true, status := "committed",
                 l1TxHash := some txHash, l1BlockHeight := some blockHeight,
                 l1CommitTime := some commitTime }
      else s) }

/-- The L2 stores reachable from the seeded initial store through the
repository operations (failed operations roll back and produce no new
state). -/
inductive Reachable : Db → Prop where
  | init : Reachable initDb
  | create {db db' : Db} {sid op : String} {s : Session} :
      Reachable db → CreateSession db sid op = .ok (db', s) → Reachable db'
  | scan {db db' : Db} {sid pid : String} {p : Package} :
      Reachable db → ScanPackage db sid pid = .ok (db', p) → Reachable db'
  | validate {db db' : Db} {pid sid : String} {p : Package} :
      Reachable db → ValidatePackage db pid sid = .ok (db', p) → Reachable db'
  | qc {db db' : Db} {sid : String} {passed : Bool} {issues qcID : String}
      {p : Package} {q : QCRecord} :
      Reachable db → QualityCheck db sid passed issues qcID = .ok (db', p, q) →
      Reachable db'
  | label {db db' : Db} {sid cid lid trk : String} {l : Label} :
      Reachable db → LabelPackage db sid cid lid trk = .ok (db', l) →
      Reachable db'
  | markCommitted {db : Db} {sid txh : String} {bh : Int} {ct : Nat} :
      Reachable db → Reachable (MarkSessionCommitted db sid txh bh ct)

/-- `CommitSessionHandler` (test-l2-endpoints.sh part, lines 442-517) for
the session id parsed from the path.  The L1 round trip is the external
parameter `l1` (`.error` = transport failure, `.ok` = parsed
`{tx_hash, block_height}`).  The 409 branch dereferences the stored
`*session.L1TxHash`; a `nil` pointer there would panic, which the model
renders as `none`. -/
def CommitSessionHandler (db : Db) (sessionID : String)
    (l1 : Except String (String × Int)) (now : Nat) :
    Option (Db × Response) :=
  match db.sessions.find? (fun s => s.id == sessionID) with
  | none => some (db, ⟨404, "\x7b\"error\":\"Session not found\"\x7d"⟩)
  | some s =>
      if s.isCommitted then
        match s.l1TxHash with
        | some h =>
            some (db, ⟨409, "\x7b\"error\":\"Session already committed\",\"tx_hash\":\"" ++ h ++ "\"\x7d"⟩)
        | none => none
      else if s.status ≠ "completed" then
        some (db, ⟨400, "\x7b\"error\":\"Session must be completed before committing\"\x7d"⟩)
      else
        match l1 with
        | .error _ => some (db, ⟨502, "\x7b\"error\":\"Failed to commit to L1\"\x7d"⟩)
        | .ok (txh, bh) =>
            some (MarkSessionCommitted db sessionID txh bh now,
              ⟨200, "\x7b\"message\":\"Session committed to L1 successfully\"\x7d"⟩)

/-- The store invariant of C9: a committed session row always carries its
L1 transaction hash and block height. -/
def SessionInvariant (db : Db) : Prop :=
  ∀ s ∈ db.sessions, s.isCommitted = true →
    s.l1TxHash.isSome = true ∧ s.l1BlockHeight.isSome = true

end L2

/-! ## Helper lemmas -/

theorem finalizeTx_fst_store_indep (tx : Tx) (s s' : Store) :
    (finalizeTx tx s).1 = (finalizeTx tx s').1 := by
  cases tx <;> rfl

theorem finalizeTxs_length (txs : List Tx) (s : Store) :
    (finalizeTxs txs s).1.length = txs.length := by
  induction txs generalizing s with
  | nil => rfl
  | cons t ts ih => simp [finalizeTxs, ih]

theorem finalizeTxs_append (a b : List Tx) (s : Store) :
    finalizeTxs (a ++ b) s =
      ((finalizeTxs a s).1 ++ (finalizeTxs b (finalizeTxs a s).2).1,
       (finalizeTxs b (finalizeTxs a s).2).2) := by
  induction a generalizing s with
  | nil => simp [finalizeTxs]
  | cons t ts ih => simp [finalizeTxs, ih]

theorem finalizeTxs_get? (txs : List Tx) (s : Store) (i : Nat) (tx : Tx)
    (h : txs[i]? = some tx) :
    (finalizeTxs txs s).1[i]? = some (finalizeTx tx s).1 := by
  induction txs generalizing s i with
  | nil => simp at h
  | cons t ts ih =>
      cases i with
      | zero =>
          simp at h
          subst h
          simp [finalizeTxs]
      | succ n =>
          simp at h
          have hrec := ih (finalizeTx t s).2 n h
          simp only [finalizeTxs, List.getElem?_cons_succ]
          rw [hrec, finalizeTx_fst_store_indep tx (finalizeTx t s).2 s]

/-! ## C10: the int64 byte codec -/

set_option maxHeartbeats 1600000 in
/-- **C10.** For every int64 value `i`,
`bytesToInt64 (int64ToBytes i) = i` (the 8-byte big-endian encoding used
for `last_block_height` round-trips), and for every byte slice shorter
than 8 bytes, `bytesToInt64` returns 0 rather than failing. -/
theorem c10_int64_bytes_roundtrip :
    (∀ i : Int, -(2 ^ 63) ≤ i → i < 2 ^ 63 →
      bytesToInt64 (int64ToBytes i) = i) ∧
    (∀ buf : List Nat, buf.length < 8 → bytesToInt64 buf = 0) := by
  constructor
  · intro i h1 h2
    have h0 : (0 : Int) ≤ i % (2 : Int) ^ 64 := Int.emod_nonneg i (by norm_num)
    have hlt : i % (2 : Int) ^ 64 < (2 : Int) ^ 64 :=
      Int.emod_lt_of_pos i (by norm_num)
    set u := (i % (2 : Int) ^ 64).toNat with hu_def
    have hu : u < 2 ^ 64 := by omega
    show bytesToInt64 [u >>> 56 % 256, u >>> 48 % 256, u >>> 40 % 256,
      u >>> 32 % 256, u >>> 24 % 256, u >>> 16 % 256, u >>> 8 % 256,
      u % 256] = i
    rw [show bytesToInt64 [u >>> 56 % 256, u >>> 48 % 256, u >>> 40 % 256,
      u >>> 32 % 256, u >>> 24 % 256, u >>> 16 % 256, u >>> 8 % 256,
      u % 256] = toInt64 ((u >>> 56 % 256) <<< 56 ||| (u >>> 48 % 256) <<< 48 |||
      (u >>> 40 % 256) <<< 40 ||| (u >>> 32 % 256) <<< 32 |||
      (u >>> 24 % 256) <<< 24 ||| (u >>> 16 % 256) <<< 16 |||
      (u >>> 8 % 256) <<< 8 ||| u % 256) from rfl]
    simp only [Nat.shiftRight_eq_div_pow]
    generalize hd0 : u / 2 ^ 56 % 256 = d0
    generalize hd1 : u / 2 ^ 48 % 256 = d1
    generalize hd2 : u / 2 ^ 40 % 256 = d2
    generalize hd3 : u / 2 ^ 32 % 256 = d3
    generalize hd4 : u / 2 ^ 24 % 256 = d4
    generalize hd5 : u / 2 ^ 16 % 256 = d5
    generalize hd6 : u / 2 ^ 8 % 256 = d6
    generalize hd7 : u % 256 = d7
    have hb0 : d0 < 256 := by omega
    have hb1 : d1 < 256 := by omega
    have hb2 : d2 < 256 := by omega
    have hb3 : d3 < 256 := by omega
    have hb4 : d4 < 256 := by omega
    have hb5 : d5 < 256 := by omega
    have hb6 : d6 < 256 := by omega
    have hb7 : d7 < 256 := by omega
    have t0 : d0 <<< 56 ||| d1 <<< 48 = 2 ^ 48 * (2 ^ 8 * d0 + d1) := by
      rw [Nat.shiftLeft_eq, Nat.shiftLeft_eq, Nat.mul_comm d0 (2 ^ 56),
        ← Nat.mul_add_lt_is_or (show d1 * 2 ^ 48 < 2 ^ 56 by omega) d0]
      ring
    have t1 : 2 ^ 48 * (2 ^ 8 * d0 + d1) ||| d2 <<< 40 =
        2 ^ 40 * (2 ^ 16 * d0 + 2 ^ 8 * d1 + d2) := by
      rw [Nat.shiftLeft_eq,
        ← Nat.mul_add_lt_is_or (show d2 * 2 ^ 40 < 2 ^ 48 by omega)]
      ring
    have t2 : 2 ^ 40 * (2 ^ 16 * d0 + 2 ^ 8 * d1 + d2) ||| d3 <<< 32 =
        2 ^ 32 * (2 ^ 24 * d0 + 2 ^ 16 * d1 + 2 ^ 8 * d2 + d3) := by
      rw [Nat.shiftLeft_eq,
        ← Nat.mul_add_lt_is_or (show d3 * 2 ^ 32 < 2 ^ 40 by omega)]
      ring
    have t3 : 2 ^ 32 * (2 ^ 24 * d0 + 2 ^ 16 * d1 + 2 ^ 8 * d2 + d3) |||
        d4 <<< 24 =
        2 ^ 24 * (2 ^ 32 * d0 + 2 ^ 24 * d1 + 2 ^ 16 * d2 + 2 ^ 8 * d3 + d4) := by
      rw [Nat.shiftLeft_eq,
        ← Nat.mul_add_lt_is_or (show d4 * 2 ^ 24 < 2 ^ 32 by omega)]
      ring
    have t4 : 2 ^ 24 * (2 ^ 32 * d0 + 2 ^ 24 * d1 + 2 ^ 16 * d2 + 2 ^ 8 * d3 + d4) |||
        d5 <<< 16 =
        2 ^ 16 * (2 ^ 40 * d0 + 2 ^ 32 * d1 + 2 ^ 24 * d2 + 2 ^ 16 * d3 +
          2 ^ 8 * d4 + d5) := by
      rw [Nat.shiftLeft_eq,
        ← Nat.mul_add_lt_is_or (show d5 * 2 ^ 16 < 2 ^ 24 by omega)]
      ring
    have t5 : 2 ^ 16 * (2 ^ 40 * d0 + 2 ^ 32 * d1 + 2 ^ 24 * d2 + 2 ^ 16 * d3 +
        2 ^ 8 * d4 + d5) ||| d6 <<< 8 =
        2 ^ 8 * (2 ^ 48 * d0 + 2 ^ 40 * d1 + 2 ^ 32 * d2 + 2 ^ 24 * d3 +
          2 ^ 16 * d4 + 2 ^ 8 * d5 + d6) := by
      rw [Nat.shiftLeft_eq,
        ← Nat.mul_add_lt_is_or (show d6 * 2 ^ 8 < 2 ^ 16 by omega)]
      ring
    have t6 : 2 ^ 8 * (2 ^ 48 * d0 + 2 ^ 40 * d1 + 2 ^ 32 * d2 + 2 ^ 24 * d3 +
        2 ^ 16 * d4 + 2 ^ 8 * d5 + d6) ||| d7 =
        2 ^ 56 * d0 + 2 ^ 48 * d1 + 2 ^ 40 * d2 + 2 ^ 32 * d3 +
          2 ^ 24 * d4 + 2 ^ 16 * d5 + 2 ^ 8 * d6 + d7 := by
      rw [← Nat.mul_add_lt_is_or (show d7 < 2 ^ 8 by omega)]
      ring
    rw [t0, t1, t2, t3, t4, t5, t6]
    have hsum : 2 ^ 56 * d0 + 2 ^ 48 * d1 + 2 ^ 40 * d2 + 2 ^ 32 * d3 +
        2 ^ 24 * d4 + 2 ^ 16 * d5 + 2 ^ 8 * d6 + d7 = u := by omega
    rw [hsum]
    simp only [toInt64, Nat.mod_eq_of_lt hu]
    split <;> omega
  · intro buf h
    simp [bytesToInt64, h]

/-- Witness for C10 at a concrete point. -/
theorem c10_int64_bytes_roundtrip_witness :
    bytesToInt64 (int64ToBytes (-5)) = -5 :=
  c10_int64_bytes_roundtrip.1 (-5) (by decide) (by decide)

/-! ## C2: the app hash -/

/-- **C2.** For every block finalized by `FinalizeBlock`, the app hash
returned and stored under the key `last_block_app_hash` equals SHA-256 of
the concatenation of the `Data` fields of the per-transaction execution
results, in the order the consensus engine supplied the transactions. -/
theorem c2_app_hash (height : Int) (txs : List Tx) (store : Store) :
    (FinalizeBlock height txs store).1.appHash =
      sha256 (((FinalizeBlock height txs store).1.txResults.map (·.data)).flatten) ∧
    storeGet (FinalizeBlock height txs store).2 "last_block_app_hash" =
      some ((FinalizeBlock height txs store).1.appHash) := by
  constructor
  · rfl
  · simp [FinalizeBlock, storeGet, storeSet]

/-! ## C3: per-transaction keyed writes and events -/

/-- **C3.** For every well-formed transaction in a finalized block,
`FinalizeBlock` computes `tx_id` as the lowercase hex encoding of
`SHA-256(session_id ++ shard_id)` and, within the block's single write
transaction, writes exactly the three keys `tx:<tx_id>` (raw bytes),
`shard:<shard_id>:session:<session_id>` (raw bytes) and `status:<tx_id>`
(`"accepted"`), and emits one event with indexed attributes
`session_id, shard_id, client_group, tx_id, status`. -/
theorem c3_finalize_tx_writes :
    ∀ (req : ShardedCommitRequest) (raw : List Nat) (store : Store),
      (finalizeTx (Tx.commit req raw) store =
        ({ code := 0,
           data := strBytes (hexEncode (sha256 (strBytes (req.sessionID ++ req.shardID)))),
           log := "accepted",
           events := [{ type := "l1_shard_commit",
                        attributes :=
                          [⟨"session_id", req.sessionID, true⟩,
                           ⟨"shard_id", req.shardID, true⟩,
                           ⟨"client_group", req.clientGroup, true⟩,
                           ⟨"tx_id", hexEncode (sha256 (strBytes (req.sessionID ++ req.shardID))), true⟩,
                           ⟨"status", "accepted", true⟩] }] },
         ("status:" ++ hexEncode (sha256 (strBytes (req.sessionID ++ req.shardID))), strBytes "accepted") ::
         ("shard:" ++ req.shardID ++ ":session:" ++ req.sessionID, raw) ::
         ("tx:" ++ hexEncode (sha256 (strBytes (req.sessionID ++ req.shardID))), raw) ::
         store)) ∧
      (∀ (height : Int) (txs : List Tx) (i : Nat),
        txs[i]? = some (Tx.commit req raw) →
        (FinalizeBlock height txs store).1.txResults[i]? =
          some (finalizeTx (Tx.commit req raw) store).1) := by
  intro req raw store
  constructor
  · rfl
  · intro height txs i h
    exact finalizeTxs_get? txs store i _ h

/-- Witness for C3 at a concrete block. -/
theorem c3_finalize_tx_writes_witness :
    (FinalizeBlock 1 [Tx.commit ⟨"shard-a", "group-a", "SES-1", "OPR-1", "d", "n", 0⟩ [1]] []).1.txResults[0]? =
      some (finalizeTx (Tx.commit ⟨"shard-a", "group-a", "SES-1", "OPR-1", "d", "n", 0⟩ [1]) []).1 :=
  (c3_finalize_tx_writes ⟨"shard-a", "group-a", "SES-1", "OPR-1", "d", "n", 0⟩ [1] []).2 1
    [Tx.commit ⟨"shard-a", "group-a", "SES-1", "OPR-1", "d", "n", 0⟩ [1]] 0 rfl

/-! ## C8: malformed transactions -/

/-- **C8.** `FinalizeBlock` is total over arbitrary transaction bytes:
a transaction whose bytes fail JSON parsing yields the execution result
with code 1 and log `"Invalid shard commit format"`, writes no keys to
the ledger store and contributes no bytes to the app hash, and the
remaining transactions are still processed and the block still finalizes:
the block equals the block without the malformed transaction except for
the inserted code-1 result. -/
theorem c8_malformed_tx_total :
    ∀ (height : Int) (l1 l2 : List Tx) (raw : List Nat) (store : Store),
      FinalizeBlock height (l1 ++ Tx.malformed raw :: l2) store =
        ({ txResults :=
             (finalizeTxs l1 store).1 ++
               { code := 1, data := [], log := "Invalid shard commit format",
                 events := [] } ::
               (finalizeTxs l2 (finalizeTxs l1 store).2).1,
           appHash := (FinalizeBlock height (l1 ++ l2) store).1.appHash },
         (FinalizeBlock height (l1 ++ l2) store).2) := by
  intro height l1 l2 raw store
  have h1 := finalizeTxs_append l1 (Tx.malformed raw :: l2) store
  have h2 := finalizeTxs_append l1 l2 store
  have hmal : finalizeTxs (Tx.malformed raw :: l2) (finalizeTxs l1 store).2 =
      ({ code := 1, data := [], log := "Invalid shard commit format",
         events := [] } :: (finalizeTxs l2 (finalizeTxs l1 store).2).1,
       (finalizeTxs l2 (finalizeTxs l1 store).2).2) := by
    simp [finalizeTxs, finalizeTx]
  simp only [FinalizeBlock, h1, h2, hmal, calculateAppHash]
  simp [List.map_append, List.flatten_append]

/-! ## C1: at-most-once session admission -/

/-- **C1.** For every pair of `POST /l1/commit` requests with the same
`session_id` and all required fields non-empty, at most one is admitted:
the first pre-inserts the index row and proceeds to consensus, and every
subsequent request for that `session_id` made while the first's index row
exists is answered by the L1 HTTP surface with status 409
(`SESSION_EXISTS`). -/
theorem c1_session_admission :
    ∀ (db : Db) (req : ShardedCommitRequest),
      req.shardID ≠ "" → req.sessionID ≠ "" → req.clientGroup ≠ "" →
      shardExists db req.shardID = true →
      ((sessionExists db req.sessionID = false →
          admitSession db req =
            .ok ({ db with sessions := db.sessions ++ [mkIndexRow req] },
                 mkIndexRow req)) ∧
       (sessionExists db req.sessionID = true →
          ∀ (reqCtxDone : Bool) (outcome : BroadcastOutcome),
            ∃ resp : Response,
              ReceiveShardCommitHandler db req reqCtxDone outcome =
                some (db, resp) ∧
              handleL1APIStatus resp = 409 ∧
              resp.body = "\x7b\"error\":\"" ++
                ("Session " ++ req.sessionID ++ " already committed") ++
                "\"\x7d")) := by
  intro db req h1 h2 h3 hsh
  constructor
  · intro hne
    simp [admitSession, hsh, hne]
  · intro hex d o
    have hbody : ReceiveShardCommitHandler db req d o =
        some (db, ⟨409, "\x7b\"error\":\"" ++
          ("Session " ++ req.sessionID ++ " already committed") ++
          "\"\x7d"⟩) := by
      simp [ReceiveShardCommitHandler, ReceiveShardCommit, admitSession,
        hsh, hex, beq_iff_eq, h1, h2, h3]
    exact ⟨_, hbody, rfl, rfl⟩

/-- Witness for C1 at a concrete store and request. -/
theorem c1_session_admission_witness :
    admitSession
        { shards := [⟨"shard-a", "group-a", "l2-node-a", "active"⟩],
          sessions := [], transactions := [] }
        ⟨"shard-a", "group-a", "SES-1", "OPR-1", "d", "l2-node-a", 0⟩ =
      .ok ({ shards := [⟨"shard-a", "group-a", "l2-node-a", "active"⟩],
             sessions :=
               [mkIndexRow ⟨"shard-a", "group-a", "SES-1", "OPR-1", "d", "l2-node-a", 0⟩],
             transactions := [] },
           mkIndexRow ⟨"shard-a", "group-a", "SES-1", "OPR-1", "d", "l2-node-a", 0⟩) :=
  (c1_session_admission
      { shards := [⟨"shard-a", "group-a", "l2-node-a", "active"⟩],
        sessions := [], transactions := [] }
      ⟨"shard-a", "group-a", "SES-1", "OPR-1", "d", "l2-node-a", 0⟩
      (by decide) (by decide) (by decide) (by decide)).1 (by decide)

/-! ## C4: rollback of the pre-inserted index row -/

/-- **C4.** For every commit request admitted at L1 (index row
pre-inserted) whose consensus submission then fails, the pre-inserted
index row is deleted before the error response is produced — the final
index store is exactly the pre-admission store, so a query for that
`session_id` afterwards finds no L1 index row — and the row is deleted
iff consensus rejects: on consensus success the row survives. -/
theorem c4_consensus_rollback :
    ∀ (db : Db) (req : ShardedCommitRequest) (reqCtxDone : Bool)
      (outcome : BroadcastOutcome),
      shardExists db req.shardID = true →
      sessionExists db req.sessionID = false →
      ((∀ e, RunConsensus false outcome = some (.error e) →
          ReceiveShardCommit db req reqCtxDone outcome = some (db, .error e)) ∧
       (∀ r, RunConsensus false outcome = some (.ok r) →
          ∃ db' tx,
            ReceiveShardCommit db req reqCtxDone outcome = some (db', .ok tx) ∧
            sessionExists db' req.sessionID = true)) := by
  intro db req d o hsh hne
  have hadmit : admitSession db req =
      .ok ({ db with sessions := db.sessions ++ [mkIndexRow req] },
           mkIndexRow req) := by
    simp [admitSession, hsh, hne]
  have hall : ∀ s ∈ db.sessions, ¬(s.id == req.sessionID) = true := by
    simpa [sessionExists, List.any_eq_false] using hne
  constructor
  · intro e he
    simp only [ReceiveShardCommit, hadmit, he]
    have hdel : deleteSession
        { db with sessions := db.sessions ++ [mkIndexRow req] }
        req.sessionID = db := by
      simp only [deleteSession, List.filter_append]
      rw [List.filter_eq_self.mpr (by simpa using hall)]
      simp [mkIndexRow]
    rw [hdel]
  · intro r hr
    refine ⟨{ db with
        sessions := (db.sessions ++ [mkIndexRow req]).map
          (fun s : L1Session =>
            if s.id == req.sessionID then
              { mkIndexRow req with txHash := some r.txHash }
            else s),
        transactions := db.transactions ++
          [⟨r.txHash, req.sessionID, req.shardID, req.clientGroup,
            r.blockHeight, "confirmed"⟩] },
      ⟨r.txHash, req.sessionID, req.shardID, req.clientGroup,
        r.blockHeight, "confirmed"⟩, ?_, ?_⟩
    · simp only [ReceiveShardCommit, hadmit, hr]
      rfl
    · simp [sessionExists, List.any_map, List.any_append, mkIndexRow,
        Function.comp]

/-- Witness for C4 at a concrete store, request and consensus failure. -/
theorem c4_consensus_rollback_witness :
    ReceiveShardCommit
        { shards := [⟨"shard-a", "group-a", "l2-node-a", "active"⟩],
          sessions := [], transactions := [] }
        ⟨"shard-a", "group-a", "SES-1", "OPR-1", "d", "l2-node-a", 0⟩
        false (BroadcastOutcome.failure "down") =
      some ({ shards := [⟨"shard-a", "group-a", "l2-node-a", "active"⟩],
              sessions := [], transactions := [] },
            .error { code := "CONSENSUS_ERROR",
                     message := "Failed to commit to blockchain",
                     detail := "down" }) :=
  (c4_consensus_rollback
      { shards := [⟨"shard-a", "group-a", "l2-node-a", "active"⟩],
        sessions := [], transactions := [] }
      ⟨"shard-a", "group-a", "SES-1", "OPR-1", "d", "l2-node-a", 0⟩
      false (BroadcastOutcome.failure "down") (by decide) (by decide)).1
    { code := "CONSENSUS_ERROR", message := "Failed to commit to blockchain",
      detail := "down" } (by rfl)

/-! ## C5: the request deadline is not honored by the commit path -/

/-- **C5 counterexample.** With the incoming request's context already
done and the broadcast never completing, `ReceiveShardCommit` produces no
response at all — in particular no `CONSENSUS_TIMEOUT` — because it calls
the adapter with `context.Background()` rather than the request
context. -/
theorem c5_counterexample :
    ReceiveShardCommit
        { shards := [⟨"shard-a", "group-a", "l2-node-a", "active"⟩],
          sessions := [], transactions := [] }
        ⟨"shard-a", "group-a", "SES-1", "OPR-1", "d", "l2-node-a", 0⟩
        true BroadcastOutcome.pending = none := by
  rfl

/-- **C5 amended.** The consensus adapter honors the context it is
given — whenever that context is done before the broadcast completes it
stops waiting and returns `CONSENSUS_TIMEOUT` — but `ReceiveShardCommit`
invokes it with `context.Background()`, so the commit path's behaviour is
independent of the incoming request's cancellation/deadline state. -/
theorem c5_amended_background_context :
    (∀ outcome : BroadcastOutcome,
      RunConsensus true outcome =
        some (.error { code := "CONSENSUS_TIMEOUT",
                       message := "Consensus operation timed out",
                       detail := "context deadline exceeded" })) ∧
    (∀ (db : Db) (req : ShardedCommitRequest) (d d' : Bool)
        (outcome : BroadcastOutcome),
      ReceiveShardCommit db req d outcome =
        ReceiveShardCommit db req d' outcome) :=
  ⟨fun _ => rfl, fun _ _ _ _ _ => rfl⟩

/-! ## C6: L2 router semantics -/

theorem matchSegs_iff (ps qs : List (List Char)) :
    matchSegs ps qs = true ↔
      (ps.length = qs.length ∧
        ∀ pq ∈ ps.zip qs, segIsParam pq.1 = true ∨ pq.1 = pq.2) := by
  induction ps generalizing qs with
  | nil => cases qs <;> simp [matchSegs]
  | cons p ps ih =>
      cases qs with
      | nil => simp [matchSegs]
      | cons q qs =>
          simp only [matchSegs, Bool.and_eq_true, Bool.or_eq_true,
            beq_iff_eq, List.zip_cons_cons, List.mem_cons,
            List.length_cons, ih]
          constructor
          · rintro ⟨hp, hlen, hrest⟩
            refine ⟨by omega, ?_⟩
            rintro pq (rfl | hm)
            · exact hp
            · exact hrest pq hm
          · rintro ⟨hlen, hall⟩
            exact ⟨hall ⟨p, q⟩ (Or.inl rfl), by omega,
              fun pq hm => hall pq (Or.inr hm)⟩

/-- **C6 counterexample.** The claim says a `:name` pattern segment
matches only non-empty path segments, but `matchPath` lets `:id` match
the empty segment of `/session//scan`. -/
theorem c6_counterexample :
    matchPath "/session/:id/scan" "/session//scan" = true ∧
    matchPathSpec "/session/:id/scan" "/session//scan" = false := by
  constructor <;> rfl

/-- **C6 amended.** The L2 router first tries an exact pattern match,
then the registered patterns through `matchPath`, where each `:name`
segment matches any single path segment — including the empty one — and
a locally handled request matching no registered pattern receives a 404
response with a JSON error body. -/
theorem c6_router_semantics :
    (∀ (α : Type) (mh : MethodHandlers α) (path : String)
        (p : String × α),
      List.find? (fun q => q.1 == path) mh = some p →
      findHandler mh path = some p.2) ∧
    (∀ pattern path : String,
      matchPath pattern path = true ↔
        ((splitSeg pattern.data).length = (splitSeg path.data).length ∧
          ∀ pq ∈ (splitSeg pattern.data).zip (splitSeg path.data),
            segIsParam pq.1 = true ∨ pq.1 = pq.2)) ∧
    (∀ (α : Type) (handlers : List (String × MethodHandlers α))
        (localGroup : String) (shardTable : List (String × String))
        (req : L2Request),
      headerGet req.headers "X-Client-Group" = "" →
      GetHandlerForPath handlers req.method req.path = none →
      GenerateResponse handlers localGroup shardTable req =
        .response ⟨404, "\x7b\"error\":\"Service not found for " ++
          req.method ++ " " ++ req.path ++ "\"\x7d"⟩) := by
  refine ⟨?_, ?_, ?_⟩
  · intro α mh path p h
    simp [findHandler, h]
  · intro pattern path
    exact matchSegs_iff _ _
  · intro α handlers localGroup shardTable req hheader hnone
    simp [GenerateResponse, hheader, hnone]

/-- Witness for C6 at a concrete registry and request. -/
theorem c6_router_semantics_witness :
    findHandler [("/info", (7 : Nat))] "/info" = some 7 :=
  c6_router_semantics.1 Nat [("/info", 7)] "/info" ("/info", 7) rfl

/-! ## C7: identifier policy -/

theorem isHexChar_hexDigit (n : Nat) : isHexChar (hexDigit (n % 16)) = true := by
  have h : n % 16 < 16 := Nat.mod_lt _ (by norm_num)
  set m := n % 16 with hm
  clear_value m
  interval_cases m <;> decide

/-- **C7 counterexample.** The tracking number is
`TRK-` ++ `uuid.New().String()[:12]`, and the canonical UUID string has a
hyphen at index 8, so the 12 characters after `TRK-` are not all
hexadecimal: at the all-zero draw the tracking number is
`TRK-00000000-000`. -/
theorem c7_counterexample :
    trackingNoChars (fun _ => 0) = "TRK-00000000-000".data ∧
    ("TRK-00000000-000".data.getD 12 ' ' = '-') ∧
    isHexChar '-' = false := by
  refine ⟨rfl, rfl, rfl⟩

/-- **C7 amended.** Session ids are `SES-` plus exactly 8 lowercase hex
characters, QC ids `QC-` plus 8 hex, label ids `LBL-` plus 8 hex; the
tracking number is `TRK-` plus the first 12 characters of the UUID
string, which are 8 hex characters, a hyphen, and 3 hex characters. -/
theorem c7_identifier_policy :
    ∀ r : Fin 16 → Nat,
      (∃ s, sessionIDChars r = "SES-".data ++ s ∧ s.length = 8 ∧
        ∀ c ∈ s, isHexChar c = true) ∧
      (∃ s, qcIDChars r = "QC-".data ++ s ∧ s.length = 8 ∧
        ∀ c ∈ s, isHexChar c = true) ∧
      (∃ s, labelIDChars r = "LBL-".data ++ s ∧ s.length = 8 ∧
        ∀ c ∈ s, isHexChar c = true) ∧
      (∃ t, trackingNoChars r = "TRK-".data ++ t ∧ t.length = 12 ∧
        t.getD 8 ' ' = '-' ∧
        (∀ c ∈ t.take 8, isHexChar c = true) ∧
        (∀ c ∈ t.drop 9, isHexChar c = true)) := by
  intro r
  have h8 : (uuidNewString r).take 8 =
      [hexDigit (uuidV4Bytes r 0 / 16 % 16), hexDigit (uuidV4Bytes r 0 % 16),
       hexDigit (uuidV4Bytes r 1 / 16 % 16), hexDigit (uuidV4Bytes r 1 % 16),
       hexDigit (uuidV4Bytes r 2 / 16 % 16), hexDigit (uuidV4Bytes r 2 % 16),
       hexDigit (uuidV4Bytes r 3 / 16 % 16), hexDigit (uuidV4Bytes r 3 % 16)] := by
    simp [uuidNewString, uuidChars, byteHex]
  have h12 : (uuidNewString r).take 12 =
      [hexDigit (uuidV4Bytes r 0 / 16 % 16), hexDigit (uuidV4Bytes r 0 % 16),
       hexDigit (uuidV4Bytes r 1 / 16 % 16), hexDigit (uuidV4Bytes r 1 % 16),
       hexDigit (uuidV4Bytes r 2 / 16 % 16), hexDigit (uuidV4Bytes r 2 % 16),
       hexDigit (uuidV4Bytes r 3 / 16 % 16), hexDigit (uuidV4Bytes r 3 % 16),
       '-',
       hexDigit (uuidV4Bytes r 4 / 16 % 16), hexDigit (uuidV4Bytes r 4 % 16),
       hexDigit (uuidV4Bytes r 5 / 16 % 16)] := by
    simp [uuidNewString, uuidChars, byteHex]
  have hexAll8 : ∀ c ∈ (uuidNewString r).take 8, isHexChar c = true := by
    rw [h8]
    intro c hc
    simp only [List.mem_cons, List.not_mem_nil, or_false] at hc
    rcases hc with rfl | rfl | rfl | rfl | rfl | rfl | rfl | rfl <;>
      exact isHexChar_hexDigit _
  have len8 : ((uuidNewString r).take 8).length = 8 := by rw [h8]; rfl
  have len12 : ((uuidNewString r).take 12).length = 12 := by rw [h12]; rfl
  have dash : ((uuidNewString r).take 12).getD 8 ' ' = '-' := by rw [h12]; rfl
  have take8of12 : ((uuidNewString r).take 12).take 8 =
      (uuidNewString r).take 8 := by rw [h12, h8]; rfl
  have hdrop : ((uuidNewString r).take 12).drop 9 =
      [hexDigit (uuidV4Bytes r 4 / 16 % 16), hexDigit (uuidV4Bytes r 4 % 16),
       hexDigit (uuidV4Bytes r 5 / 16 % 16)] := by rw [h12]; rfl
  refine ⟨⟨(uuidNewString r).take 8, rfl, len8, hexAll8⟩,
          ⟨(uuidNewString r).take 8, rfl, len8, hexAll8⟩,
          ⟨(uuidNewString r).take 8, rfl, len8, hexAll8⟩,
          ⟨(uuidNewString r).take 12, rfl, len12, dash, ?_, ?_⟩⟩
  · rw [take8of12]
    exact hexAll8
  · rw [hdrop]
    intro c hc
    simp only [List.mem_cons, List.not_mem_nil, or_false] at hc
    rcases hc with rfl | rfl | rfl <;> exact isHexChar_hexDigit _

/-- Witness for C7: a concrete hex character of a concrete tracking
number, extracted through the theorem. -/
theorem c7_identifier_policy_witness : isHexChar '0' = true := by
  obtain ⟨-, -, -, t, ht, -, -, htake, -⟩ := c7_identifier_policy (fun _ => 0)
  have hval : trackingNoChars (fun _ => 0) = "TRK-00000000-000".data := rfl
  rw [hval] at ht
  have ht' : t = "00000000-000".data := by
    simpa using ht.symm
  subst ht'
  exact htake '0' (by decide)

/-! ## C9: committed L2 sessions always carry their L1 commitment data -/

theorem reachable_sessionInvariant :
    ∀ db : L2.Db, L2.Reachable db → L2.SessionInvariant db := by
  intro db h
  induction h with
  | init =>
      intro s hs
      simp [L2.initDb] at hs
  | @create db0 db' sid op s0 hre hop ih =>
      unfold L2.CreateSession at hop
      split at hop
      · simp at hop
      · simp only [Except.ok.injEq, Prod.mk.injEq] at hop
        obtain ⟨hdb, -⟩ := hop
        subst hdb
        intro s hs hc
        rcases List.mem_append.mp hs with hmem | hmem
        · exact ih s hmem hc
        · simp only [List.mem_singleton] at hmem
          subst hmem
          simp at hc
  | @scan db0 db' sid pid p hre hop ih =>
      unfold L2.ScanPackage at hop
      split at hop
      · simp at hop
      · simp only [Except.ok.injEq, Prod.mk.injEq] at hop
        obtain ⟨hdb, -⟩ := hop
        subst hdb
        intro s hs hc
        obtain ⟨s1, hs1, rfl⟩ := List.mem_map.mp hs
        by_cases hid : (s1.id == sid) = true
        · simp only [hid, if_true] at hc ⊢
          exact ih s1 hs1 hc
        · simp only [hid] at hc ⊢
          simp only [Bool.false_eq_true, if_false] at hc ⊢
          exact ih s1 hs1 hc
  | @validate db0 db' pid sid p hre hop ih =>
      unfold L2.ValidatePackage at hop
      split at hop
      · simp at hop
      · simp only [Except.ok.injEq, Prod.mk.injEq] at hop
        obtain ⟨hdb, -⟩ := hop
        subst hdb
        intro s hs hc
        exact ih s hs hc
  | @qc db0 db' sid passed issues qcID p q hre hop ih =>
      unfold L2.QualityCheck at hop
      split at hop
      · simp at hop
      · split at hop
        · simp at hop
        · split at hop
          · simp at hop
          · simp only [Except.ok.injEq, Prod.mk.injEq] at hop
            obtain ⟨hdb, -⟩ := hop
            subst hdb
            intro s hs hc
            exact ih s hs hc
  | @label db0 db' sid cid lid trk l hre hop ih =>
      unfold L2.LabelPackage at hop
      split at hop
      · simp at hop
      · split at hop
        · simp at hop
        · simp only [Except.ok.injEq, Prod.mk.injEq] at hop
          obtain ⟨hdb, -⟩ := hop
          subst hdb
          intro s hs hc
          obtain ⟨s1, hs1, rfl⟩ := List.mem_map.mp hs
          by_cases hid : (s1.id == sid) = true
          · simp only [hid, if_true] at hc ⊢
            exact ih s1 hs1 hc
          · simp only [hid] at hc ⊢
            simp only [Bool.false_eq_true, if_false] at hc ⊢
            exact ih s1 hs1 hc
  | @markCommitted db0 sid txh bh ct hre ih =>
      intro s hs hc
      simp only [L2.MarkSessionCommitted] at hs
      obtain ⟨s1, hs1, rfl⟩ := List.mem_map.mp hs
      by_cases hid : (s1.id == sid) = true
      · simp [hid]
      · simp only [hid] at hc ⊢
        simp only [Bool.false_eq_true, if_false] at hc ⊢
        exact ih s1 hs1 hc

/-- **C9.** Every L2 store operation preserves the invariant that a
session with `is_committed = true` also has non-nil `l1_tx_hash` and
`l1_block_height` (`MarkSessionCommitted` is the only writer of
`is_committed` and sets these fields in one update); consequently, on
every reachable L2 store, the 409 branch of the commit handler — which
dereferences the stored `l1_tx_hash` pointer — never dereferences nil. -/
theorem c9_committed_sessions_safe :
    ∀ db : L2.Db, L2.Reachable db →
      L2.SessionInvariant db ∧
      ∀ (sid : String) (l1 : Except String (String × Int)) (now : Nat),
        L2.CommitSessionHandler db sid l1 now ≠ none := by
  intro db h
  have hinv := reachable_sessionInvariant db h
  refine ⟨hinv, ?_⟩
  intro sid l1 now
  unfold L2.CommitSessionHandler
  cases hfind : db.sessions.find? (fun s => s.id == sid) with
  | none => simp
  | some s =>
      have hmem : s ∈ db.sessions := List.mem_of_find?_eq_some hfind
      by_cases hc : s.isCommitted = true
      · obtain ⟨hsome, -⟩ := hinv s hmem hc
        obtain ⟨h0, hh⟩ := Option.isSome_iff_exists.mp hsome
        simp [hc, hh]
      · simp only [Bool.not_eq_true] at hc
        simp only [hc, Bool.false_eq_true, if_false]
        by_cases hst : s.status = "completed"
        · simp only [hst, ne_eq, not_true_eq_false, if_false]
          cases l1 with
          | error e => simp
          | ok p => simp
        · simp [hst]

/-- Witness for C9 at the seeded initial store. -/
theorem c9_committed_sessions_safe_witness :
    L2.SessionInvariant L2.initDb ∧
    ∀ (sid : String) (l1 : Except String (String × Int)) (now : Nat),
      L2.CommitSessionHandler L2.initDb sid l1 now ≠ none :=
  c9_committed_sessions_safe L2.initDb L2.Reachable.init

end ThesisExt
